import Mathlib

/-!
Shallow embedding of `src/main.cpp` (an instanced-rendering OpenGL demo).

Conventions of the embedding:
* `float`/`double` values are embedded as exact rationals (`ℚ`); the
  arithmetic is idealized as exact.  Decimal literals are taken at their
  written value; `glm::pi<float>()` is embedded as the binary32 value
  nearest π (a rational), since that is the constant the program computes
  with.
* GL object handles are natural numbers.  GL side effects are modelled as
  an explicit event trace (`GLCall`), and the mutable globals and the
  CPU-side arrays as an explicit state record (`AppState`).
* `rand()` is modelled as a stream of naturals supplied by the
  environment; GL handle allocation and shader-compilation outcomes are
  supplied by a `GLEnv`/`ShaderEnv` record.
-/

namespace Graphics

/-- Window width constant `WINDOW_WIDTH` (main.cpp line 114). -/
def WINDOW_WIDTH : ℚ := 1920

/-- Window height constant `WINDOW_HEIGHT` (main.cpp line 115). -/
def WINDOW_HEIGHT : ℚ := 1080

/-- Aspect ratio constant (main.cpp line 116). -/
def ASPECT_RATIO : ℚ := WINDOW_WIDTH / WINDOW_HEIGHT

/-- Number of instances, `instances_index` (main.cpp line 321). -/
def instances_index : ℕ := 1000

/-- Size in bytes of a C `float`. -/
def sizeofFloat : ℕ := 4

/-- Size in bytes of a C `unsigned int`. -/
def sizeofUInt : ℕ := 4

/-- The index array `indices` (main.cpp lines 316-319). -/
def indices : List ℕ := [0, 1, 3, 1, 2, 3]

/-- The vertex array `vertices` (main.cpp lines 310-315), flattened. -/
def vertices : List ℚ := [1, 1, 1, -1, -1, -1, -1, 1]

/-- The count argument of the draw call, `sizeof(indices) / sizeof(float)`
(main.cpp line 395). -/
def drawIndexCount : ℕ := indices.length * sizeofUInt / sizeofFloat

/-- The binary32 floating-point value nearest π, the value of
`glm::pi<float>()`, as an exact rational. -/
def glm_pi : ℚ := 13176795 / 4194304

/-- The wrap threshold `2.0f * glm::pi<float>()` (main.cpp line 383). -/
def twoPi : ℚ := 2 * glm_pi

/-- The rotation speed `rotationSpeed = 1.0f` in radians per second
(main.cpp line 376). -/
def rotationSpeed : ℚ := 1

/-- MSVC `RAND_MAX` (the program targets Windows / `<windows.h>`). -/
def RAND_MAX : ℕ := 32767

/-- GLFW key code of the space key. -/
def GLFW_KEY_SPACE : ℤ := 32

/-- GLFW key code of the T key. -/
def GLFW_KEY_T : ℤ := 84

/-- GLFW action code for a key press. -/
def GLFW_PRESS : ℤ := 1

/-- A two-component float vector (`glm::vec2`). -/
structure Vec2 where
  x : ℚ
  y : ℚ
deriving DecidableEq

/-- A three-component float vector (`glm::vec3`). -/
structure Vec3 where
  x : ℚ
  y : ℚ
  z : ℚ
deriving DecidableEq

/-- The OpenGL polygon rasterization mode (`GL_FILL` / `GL_LINE`). -/
inductive PolygonMode where
  | fill
  | line
deriving DecidableEq

/-- One GL API call, as an event of the program trace.  Arguments are kept
only where a claim refers to them. -/
inductive GLCall where
  | createShader
  | shaderSource
  | compileShaderCall
  | createProgram
  | attachShader
  | linkProgram
  | deleteShader
  | deleteProgram
  | genVertexArrays
  | genBuffers
  | deleteBuffers
  | deleteVertexArrays
  | bindVertexArray (h : ℕ)
  | bindBuffer (h : ℕ)
  | bufferData (size : ℕ)
  | bufferSubData (size : ℕ)
  | vertexAttribPointer
  | enableVertexAttribArray
  | vertexAttribDivisor
  | useProgram (h : ℕ)
  | uniformCall
  | polygonModeCall (m : PolygonMode)
  | clear
  | drawElementsInstanced (indexCount : ℕ) (instanceCount : ℕ)
  | swapBuffers
  | pollEvents
deriving DecidableEq

/-- Classifier: GL calls that create a GPU object (shader, program, buffer,
vertex array). -/
def isCreation : GLCall → Bool
  | GLCall.createShader => true
  | GLCall.createProgram => true
  | GLCall.genVertexArrays => true
  | GLCall.genBuffers => true
  | _ => false

/-- Classifier: GL calls that delete a GPU object. -/
def isDeletion : GLCall → Bool
  | GLCall.deleteShader => true
  | GLCall.deleteProgram => true
  | GLCall.deleteBuffers => true
  | GLCall.deleteVertexArrays => true
  | _ => false

/-- Classifier: GL calls that delete a buffer, vertex array, or program
(every deletion other than `glDeleteShader`). -/
def isTeardown : GLCall → Bool
  | GLCall.deleteProgram => true
  | GLCall.deleteBuffers => true
  | GLCall.deleteVertexArrays => true
  | _ => false

/-- Classifier: instanced draw calls. -/
def isDraw : GLCall → Bool
  | GLCall.drawElementsInstanced _ _ => true
  | _ => false

/-- Classifier: `glDeleteShader` calls. -/
def isDeleteShader : GLCall → Bool
  | GLCall.deleteShader => true
  | _ => false

/-- The program state: the mutable globals of main.cpp
(`circleShader`, `rectangleShader`, `activeShader`, `WIREFRAME_ENABLED`),
the GL polygon mode, the locals of `main` that the render loop uses
(`rotationAngle`, `lastFrameTime`, the handles `VAO` and `iModelVBO`),
the CPU-side instance arrays, and the GPU-side copy of the model buffer. -/
structure AppState where
  circleShader : ℕ
  rectangleShader : ℕ
  activeShader : ℕ
  WIREFRAME_ENABLED : Bool
  polygonMode : PolygonMode
  rotationAngle : ℚ
  lastFrameTime : ℚ
  VAO : ℕ
  iModelVBO : ℕ
  instances : Fin instances_index → Vec2
  instance_colors : Fin instances_index → Vec3
  instance_models : Fin instances_index → Vec3
  iModelBuffer : Fin instances_index → Vec3

/-- `rndFloat(lower, upper)` (main.cpp lines 257-261); the value returned
by `rand()` is passed in explicitly as `r`. -/
def rndFloat (r : ℕ) (lower upper : ℚ) : ℚ :=
  let random : ℚ := (r : ℚ) / (RAND_MAX : ℚ)
  lower + random * (upper - lower)

/-- `getDeltaTima(lastFrameTime)` (main.cpp lines 263-269): given the old
`lastFrameTime` and the current `glfwGetTime()` reading, returns the delta
time and the updated `lastFrameTime`. -/
def getDeltaTima (lastFrameTime currentFrameTime : ℚ) : ℚ × ℚ :=
  (currentFrameTime - lastFrameTime, currentFrameTime)

/-- The first `if` statement of `keyCallback` (main.cpp lines 279-291):
the space-key wireframe toggle, returning the new state and the GL calls
it makes. -/
def keyCallbackSpace (s : AppState) (key action : ℤ) : AppState × List GLCall :=
  if key = GLFW_KEY_SPACE ∧ action = GLFW_PRESS then
    if s.WIREFRAME_ENABLED then
      ({ s with WIREFRAME_ENABLED := !s.WIREFRAME_ENABLED,
                polygonMode := PolygonMode.fill },
       [GLCall.polygonModeCall PolygonMode.fill])
    else
      ({ s with WIREFRAME_ENABLED := !s.WIREFRAME_ENABLED,
                polygonMode := PolygonMode.line },
       [GLCall.polygonModeCall PolygonMode.line])
  else (s, [])

/-- `keyCallback` (main.cpp lines 277-297): the space-key toggle followed
by the T-key shader swap (main.cpp lines 292-296). -/
def keyCallback (s : AppState) (key scancode action mods : ℤ) : AppState × List GLCall :=
  let r := keyCallbackSpace s key action
  if key = GLFW_KEY_T ∧ action = GLFW_PRESS then
    if r.1.activeShader ≠ r.1.rectangleShader then
      ({ r.1 with activeShader := r.1.rectangleShader }, r.2)
    else
      ({ r.1 with activeShader := r.1.circleShader }, r.2)
  else r

/-- Environment for one `compileShader` invocation: the handles GL hands
out and the success flags and info logs GL reports. -/
structure ShaderEnv where
  vertexShaderHandle : ℕ
  fragmentShaderHandle : ℕ
  programHandle : ℕ
  vertexCompileOk : Bool
  fragmentCompileOk : Bool
  linkOk : Bool
  vertexInfoLog : String
  fragmentInfoLog : String
  programInfoLog : String

/-- `compileShader` (main.cpp lines 135-184): compiles the vertex shader,
compiles the fragment shader, links the program, printing a diagnostic
to standard output after each failed step, deletes the two shader
objects, and returns the program handle.  The result is the returned
handle, the list of lines printed to standard output, and the GL call
trace. -/
def compileShader (env : ShaderEnv) : ℕ × List String × List GLCall :=
  let vertexOut : List String :=
    if env.vertexCompileOk then []
    else ["Error, vertex shader failed to compile:\n" ++ env.vertexInfoLog]
  let fragmentOut : List String :=
    if env.fragmentCompileOk then []
    else ["Error, fragment shader failed to compile:\n" ++ env.fragmentInfoLog]
  let linkOut : List String :=
    if env.linkOk then []
    else ["Error, shaders failed to link:\n" ++ env.programInfoLog]
  (env.programHandle,
   vertexOut ++ fragmentOut ++ linkOut,
   [GLCall.createShader, GLCall.shaderSource, GLCall.compileShaderCall,
    GLCall.createShader, GLCall.shaderSource, GLCall.compileShaderCall,
    GLCall.createProgram, GLCall.attachShader, GLCall.attachShader,
    GLCall.linkProgram,
    GLCall.deleteShader, GLCall.deleteShader])

/-- GL call trace of `setupBuffers` (main.cpp lines 186-205). -/
def setupBuffers (VAOh VBOh : ℕ) (size : ℕ) : List GLCall :=
  [GLCall.genVertexArrays, GLCall.bindVertexArray VAOh,
   GLCall.genBuffers, GLCall.bindBuffer VBOh, GLCall.bufferData size,
   GLCall.vertexAttribPointer, GLCall.enableVertexAttribArray,
   GLCall.bindVertexArray 0]

/-- GL call trace of `createEBO` (main.cpp lines 207-219). -/
def createEBO (VAOh EBOh : ℕ) (size : ℕ) : List GLCall :=
  [GLCall.bindVertexArray VAOh,
   GLCall.genBuffers, GLCall.bindBuffer EBOh, GLCall.bufferData size,
   GLCall.bindVertexArray 0]

/-- GL call trace of `createVBO` (main.cpp lines 221-238). -/
def createVBO (VAOh VBOh : ℕ) (size : ℕ) : List GLCall :=
  [GLCall.bindVertexArray VAOh,
   GLCall.genBuffers, GLCall.bindBuffer VBOh, GLCall.bufferData size,
   GLCall.vertexAttribPointer, GLCall.enableVertexAttribArray,
   GLCall.vertexAttribDivisor,
   GLCall.bindVertexArray 0]

/-- Environment of `main`: the handles GL hands out for the six buffer
objects, the two shader-compilation environments, and the `rand()`
stream. -/
structure GLEnv where
  VAOh : ℕ
  VBOh : ℕ
  EBOh : ℕ
  iPosVBOh : ℕ
  iColorVBOh : ℕ
  iModelVBOh : ℕ
  circleEnv : ShaderEnv
  rectangleEnv : ShaderEnv
  rnd : ℕ → ℕ

/-- Position of instance `i` as initialized by the startup loop
(main.cpp line 328): `rndFloat` over `[- ASPECT_RATIO, ASPECT_RATIO]` and
`rndFloat(-1.0f, 1.0f)`.  Each `rand()` call consumes the next element of
the stream; instance `i` consumes elements `5*i` through `5*i+4`. -/
def initInstancePos (rnd : ℕ → ℕ) (i : ℕ) : Vec2 :=
  ⟨rndFloat (rnd (5 * i)) (- ASPECT_RATIO) ASPECT_RATIO,
   rndFloat (rnd (5 * i + 1)) (-1) 1⟩

/-- Color of instance `i` as initialized by the startup loop
(main.cpp line 329): three `rndFloat(0.0f, 1.0f)` values. -/
def initInstanceColor (rnd : ℕ → ℕ) (i : ℕ) : Vec3 :=
  ⟨rndFloat (rnd (5 * i + 2)) 0 1,
   rndFloat (rnd (5 * i + 3)) 0 1,
   rndFloat (rnd (5 * i + 4)) 0 1⟩

/-- Model transform of every instance at startup (main.cpp line 331):
`glm::vec3(0.05f, 0.05f, 0.0f)`. -/
def initInstanceModel : Vec3 := ⟨0.05, 0.05, 0⟩

/-- Startup portion of `main` (main.cpp lines 299-377): initializes the
instance arrays, creates all buffers, compiles both shader programs, sets
the uniforms, sets `activeShader = rectangleShader`, and initializes the
animation variables.  `t0` is the `glfwGetTime()` reading at line 377.
Result: initial state, standard output, GL call trace. -/
def startup (env : GLEnv) (t0 : ℚ) : AppState × List String × List GLCall :=
  let circle := compileShader env.circleEnv
  let rectangle := compileShader env.rectangleEnv
  let state : AppState :=
    { circleShader := circle.1
      rectangleShader := rectangle.1
      activeShader := rectangle.1
      WIREFRAME_ENABLED := false
      polygonMode := PolygonMode.fill
      rotationAngle := 0
      lastFrameTime := t0
      VAO := env.VAOh
      iModelVBO := env.iModelVBOh
      instances := fun i => initInstancePos env.rnd i
      instance_colors := fun i => initInstanceColor env.rnd i
      instance_models := fun _ => initInstanceModel
      iModelBuffer := fun _ => initInstanceModel }
  (state,
   circle.2.1 ++ rectangle.2.1,
   setupBuffers env.VAOh env.VBOh (vertices.length * sizeofFloat) ++
   createEBO env.VAOh env.EBOh (indices.length * sizeofUInt) ++
   createVBO env.VAOh env.iPosVBOh (instances_index * (2 * sizeofFloat)) ++
   createVBO env.VAOh env.iColorVBOh (instances_index * (3 * sizeofFloat)) ++
   createVBO env.VAOh env.iModelVBOh (instances_index * (3 * sizeofFloat)) ++
   circle.2.2 ++ rectangle.2.2 ++
   [GLCall.useProgram circle.1, GLCall.uniformCall, GLCall.uniformCall,
    GLCall.useProgram rectangle.1, GLCall.uniformCall])

/-- The conditional wrap applied to the rotation angle each frame
(main.cpp line 383): subtract `2*pi` once if the angle reached it. -/
def wrapAngle (a : ℚ) : ℚ :=
  if a ≥ twoPi then a - twoPi else a

/-- One iteration of the render loop (main.cpp lines 379-399), given the
`glfwGetTime()` reading `now` of this frame: advance and wrap the
rotation angle, write it into the z component of every instance model,
re-upload the model buffer, clear, and issue the instanced draw call with
the active shader. -/
def frame (s : AppState) (now : ℚ) : AppState × List GLCall :=
  let d := getDeltaTima s.lastFrameTime now
  let a := wrapAngle (s.rotationAngle + rotationSpeed * d.1)
  let models : Fin instances_index → Vec3 :=
    fun i => ⟨(s.instance_models i).x, (s.instance_models i).y, a⟩
  ({ s with lastFrameTime := d.2
            rotationAngle := a
            instance_models := models
            iModelBuffer := models },
   [GLCall.bindBuffer s.iModelVBO,
    GLCall.bufferSubData (instances_index * (3 * sizeofFloat)),
    GLCall.bindBuffer 0,
    GLCall.clear,
    GLCall.useProgram s.activeShader,
    GLCall.bindVertexArray s.VAO,
    GLCall.drawElementsInstanced drawIndexCount instances_index,
    GLCall.bindVertexArray 0,
    GLCall.swapBuffers,
    GLCall.pollEvents])

/-- An input event of the running program: a key event delivered by
`glfwPollEvents`, or one render-loop iteration with its clock reading. -/
inductive Ev where
  | key (key scancode action mods : ℤ)
  | frameEv (now : ℚ)

/-- One step of the running program on an input event. -/
def step (s : AppState) (e : Ev) : AppState × List GLCall :=
  match e with
  | Ev.key k sc a m => keyCallback s k sc a m
  | Ev.frameEv now => frame s now

/-- Run the program from state `s` over a list of input events,
accumulating the GL call trace. -/
def run (s : AppState) : List Ev → AppState × List GLCall
  | [] => (s, [])
  | e :: es =>
    let r := step s e
    let rest := run r.1 es
    (rest.1, r.2 ++ rest.2)

/-- The full GL call trace of a program execution: startup followed by a
list of input events. -/
def programTrace (env : GLEnv) (t0 : ℚ) (evs : List Ev) : List GLCall :=
  (startup env t0).2.2 ++ (run (startup env t0).1 evs).2

/-- A concrete shader-compilation environment, used to instantiate
theorems at concrete inputs. -/
def someShaderEnv : ShaderEnv :=
  { vertexShaderHandle := 1
    fragmentShaderHandle := 2
    programHandle := 3
    vertexCompileOk := true
    fragmentCompileOk := true
    linkOk := true
    vertexInfoLog := ""
    fragmentInfoLog := ""
    programInfoLog := "" }

/-- A concrete `main` environment, used to instantiate theorems at
concrete inputs. -/
def someGLEnv : GLEnv :=
  { VAOh := 1
    VBOh := 2
    EBOh := 3
    iPosVBOh := 4
    iColorVBOh := 5
    iModelVBOh := 6
    circleEnv := someShaderEnv
    rectangleEnv := { someShaderEnv with programHandle := 7 }
    rnd := fun _ => 0 }

/-- A concrete program state, used to instantiate theorems at concrete
inputs. -/
def someState : AppState :=
  { circleShader := 3
    rectangleShader := 7
    activeShader := 7
    WIREFRAME_ENABLED := false
    polygonMode := PolygonMode.fill
    rotationAngle := 0
    lastFrameTime := 0
    VAO := 1
    iModelVBO := 6
    instances := fun _ => ⟨0, 0⟩
    instance_colors := fun _ => ⟨0, 0, 0⟩
    instance_models := fun _ => initInstanceModel
    iModelBuffer := fun _ => initInstanceModel }

/-- C1: every iteration of the render loop advances the rotation angle by
`rotationSpeed` (1 radian per second) times the elapsed time since the
previous frame, subtracting `2*pi` once if the result reached `2*pi`;
writes the identical resulting angle into the z component of all 1000
instance model transforms and re-uploads that buffer; clears the
framebuffer; and issues exactly one instanced draw call (6 indices, 1000
instances) with the currently active shader — in that order. -/
theorem C1_render_loop_iteration (s : AppState) (now : ℚ) :
    rotationSpeed = 1 ∧
    instances_index = 1000 ∧
    drawIndexCount = 6 ∧
    (frame s now).1.rotationAngle =
      (if s.rotationAngle + rotationSpeed * (getDeltaTima s.lastFrameTime now).1 ≥ twoPi
       then s.rotationAngle + rotationSpeed * (getDeltaTima s.lastFrameTime now).1 - twoPi
       else s.rotationAngle + rotationSpeed * (getDeltaTima s.lastFrameTime now).1) ∧
    (frame s now).1.lastFrameTime = now ∧
    (∀ i : Fin instances_index,
      ((frame s now).1.instance_models i).z = (frame s now).1.rotationAngle) ∧
    (frame s now).1.iModelBuffer = (frame s now).1.instance_models ∧
    (frame s now).1.activeShader = s.activeShader ∧
    (frame s now).2 =
      [GLCall.bindBuffer s.iModelVBO,
       GLCall.bufferSubData (instances_index * (3 * sizeofFloat)),
       GLCall.bindBuffer 0,
       GLCall.clear,
       GLCall.useProgram s.activeShader,
       GLCall.bindVertexArray s.VAO,
       GLCall.drawElementsInstanced drawIndexCount instances_index,
       GLCall.bindVertexArray 0,
       GLCall.swapBuffers,
       GLCall.pollEvents] ∧
    (frame s now).2.filter isDraw = [GLCall.drawElementsInstanced 6 1000] :=
  ⟨rfl, rfl, rfl, rfl, rfl, fun _ => rfl, rfl, rfl, rfl, rfl⟩

/-- C4: a space press negates `WIREFRAME_ENABLED` and sets the polygon
mode to line exactly when the flag becomes true and to fill exactly when
it becomes false (with exactly one `glPolygonMode` call); any other key
or action leaves the flag and the polygon mode unchanged and makes no
`glPolygonMode` call. -/
theorem C4_wireframe_toggle (s : AppState) (key sc action m : ℤ) :
    ((keyCallback s key sc action m).1.WIREFRAME_ENABLED =
      if key = GLFW_KEY_SPACE ∧ action = GLFW_PRESS then !s.WIREFRAME_ENABLED
      else s.WIREFRAME_ENABLED) ∧
    ((keyCallback s key sc action m).1.polygonMode =
      if key = GLFW_KEY_SPACE ∧ action = GLFW_PRESS then
        (if (!s.WIREFRAME_ENABLED) = true then PolygonMode.line else PolygonMode.fill)
      else s.polygonMode) ∧
    ((keyCallback s key sc action m).2 =
      if key = GLFW_KEY_SPACE ∧ action = GLFW_PRESS then
        [GLCall.polygonModeCall
          (if (!s.WIREFRAME_ENABLED) = true then PolygonMode.line else PolygonMode.fill)]
      else []) := by
  cases hw : s.WIREFRAME_ENABLED <;>
    unfold keyCallback keyCallbackSpace <;>
    split_ifs <;> simp_all <;> split <;> simp_all

/-- C6: `compileShader` prints a diagnostic to standard output if and
only if vertex compilation, fragment compilation, or linking reports
failure, and in all cases it runs to completion and returns the handle of
the program it created, independently of the outcome. -/
theorem C6_compileShader_diagnostics (env : ShaderEnv) :
    (compileShader env).1 = env.programHandle ∧
    ((compileShader env).2.1 ≠ [] ↔
      env.vertexCompileOk = false ∨ env.fragmentCompileOk = false ∨
      env.linkOk = false) := by
  refine ⟨rfl, ?_⟩
  cases hv : env.vertexCompileOk <;> cases hf : env.fragmentCompileOk <;>
    cases hl : env.linkOk <;> simp [compileShader, hv, hf, hl]

/-- C10: immediately after startup the active shader is the rectangle
program and the wireframe flag is false; a first T press makes the circle
program active, and a first space press sets the flag and switches the
polygon mode to line. -/
theorem C10_initial_state (env : GLEnv) (t0 : ℚ) (sc m : ℤ) :
    (startup env t0).1.activeShader = (startup env t0).1.rectangleShader ∧
    (startup env t0).1.WIREFRAME_ENABLED = false ∧
    (keyCallback (startup env t0).1 GLFW_KEY_T sc GLFW_PRESS m).1.activeShader =
      (startup env t0).1.circleShader ∧
    (keyCallback (startup env t0).1 GLFW_KEY_SPACE sc GLFW_PRESS m).1.WIREFRAME_ENABLED
      = true ∧
    (keyCallback (startup env t0).1 GLFW_KEY_SPACE sc GLFW_PRESS m).1.polygonMode =
      PolygonMode.line := by
  refine ⟨rfl, rfl, ?_, ?_, ?_⟩ <;>
    simp [startup, keyCallback, keyCallbackSpace,
      GLFW_KEY_T, GLFW_KEY_SPACE, GLFW_PRESS]

/-- C3: a T press swaps the active shader between the two programs: from
the rectangle program it becomes the circle program, and otherwise it
becomes the rectangle program; starting from either program, two T
presses restore the original active shader. -/
theorem C3_shader_toggle (s : AppState) (sc m : ℤ)
    (h : s.activeShader = s.rectangleShader ∨ s.activeShader = s.circleShader) :
    (s.activeShader = s.rectangleShader →
      (keyCallback s GLFW_KEY_T sc GLFW_PRESS m).1.activeShader = s.circleShader) ∧
    (s.activeShader ≠ s.rectangleShader →
      (keyCallback s GLFW_KEY_T sc GLFW_PRESS m).1.activeShader = s.rectangleShader) ∧
    (keyCallback (keyCallback s GLFW_KEY_T sc GLFW_PRESS m).1
      GLFW_KEY_T sc GLFW_PRESS m).1.activeShader = s.activeShader := by
  unfold keyCallback keyCallbackSpace
  rcases h with hr | hc <;>
    by_cases har : s.activeShader = s.rectangleShader <;>
    by_cases hcr : s.circleShader = s.rectangleShader <;>
    simp_all [GLFW_KEY_T, GLFW_KEY_SPACE, GLFW_PRESS]

/-- Witness for C3 at a concrete state whose active shader is the
rectangle program. -/
theorem C3_shader_toggle_witness :
    (someState.activeShader = someState.rectangleShader ∨
     someState.activeShader = someState.circleShader) ∧
    (keyCallback (keyCallback someState GLFW_KEY_T 0 GLFW_PRESS 0).1
      GLFW_KEY_T 0 GLFW_PRESS 0).1.activeShader = someState.activeShader :=
  ⟨Or.inl rfl, (C3_shader_toggle someState 0 0 (Or.inl rfl)).2.2⟩

/-- C8: if the rotation angle is in `[0, 2*pi)` and the frame's increment
is nonnegative and less than `2*pi`, then after one render-loop iteration
the angle is again in `[0, 2*pi)`, and the wrap subtracted `2*pi` at most
once. -/
theorem C8_rotation_angle_invariant (s : AppState) (now : ℚ)
    (h0 : 0 ≤ s.rotationAngle) (h1 : s.rotationAngle < twoPi)
    (h2 : 0 ≤ rotationSpeed * (getDeltaTima s.lastFrameTime now).1)
    (h3 : rotationSpeed * (getDeltaTima s.lastFrameTime now).1 < twoPi) :
    0 ≤ (frame s now).1.rotationAngle ∧
    (frame s now).1.rotationAngle < twoPi ∧
    ((frame s now).1.rotationAngle
        = s.rotationAngle + rotationSpeed * (getDeltaTima s.lastFrameTime now).1 ∨
     (frame s now).1.rotationAngle
        = s.rotationAngle + rotationSpeed * (getDeltaTima s.lastFrameTime now).1 - twoPi) := by
  have hfr : (frame s now).1.rotationAngle
      = wrapAngle (s.rotationAngle
          + rotationSpeed * (getDeltaTima s.lastFrameTime now).1) := rfl
  rw [hfr]
  unfold wrapAngle
  split_ifs with hge
  · exact ⟨by linarith, by linarith, Or.inr rfl⟩
  · exact ⟨by linarith, by linarith, Or.inl rfl⟩

/-- Witness for C8 at a concrete state with angle 0 and a frame of
duration 1 second. -/
theorem C8_rotation_angle_invariant_witness :
    (0 ≤ someState.rotationAngle ∧ someState.rotationAngle < twoPi ∧
     0 ≤ rotationSpeed * (getDeltaTima someState.lastFrameTime 1).1 ∧
     rotationSpeed * (getDeltaTima someState.lastFrameTime 1).1 < twoPi) ∧
    0 ≤ (frame someState 1).1.rotationAngle ∧
    (frame someState 1).1.rotationAngle < twoPi :=
  ⟨⟨by norm_num [someState], by norm_num [someState, twoPi, glm_pi],
    by norm_num [someState, rotationSpeed, getDeltaTima],
    by norm_num [someState, rotationSpeed, getDeltaTima, twoPi, glm_pi]⟩,
   (C8_rotation_angle_invariant someState 1
      (by norm_num [someState])
      (by norm_num [someState, twoPi, glm_pi])
      (by norm_num [someState, rotationSpeed, getDeltaTima])
      (by norm_num [someState, rotationSpeed, getDeltaTima, twoPi, glm_pi])).1,
   (C8_rotation_angle_invariant someState 1
      (by norm_num [someState])
      (by norm_num [someState, twoPi, glm_pi])
      (by norm_num [someState, rotationSpeed, getDeltaTima])
      (by norm_num [someState, rotationSpeed, getDeltaTima, twoPi, glm_pi])).2.1⟩

/-- Helper: `rndFloat` with a `rand()` value in `[0, RAND_MAX]` and
`lower <= upper` lands in `[lower, upper]`. -/
theorem rndFloat_mem (r : ℕ) (lower upper : ℚ)
    (hr : r ≤ RAND_MAX) (hlu : lower ≤ upper) :
    lower ≤ rndFloat r lower upper ∧ rndFloat r lower upper ≤ upper := by
  have hq : (0:ℚ) < (RAND_MAX : ℕ) := by norm_num [RAND_MAX]
  have h0 : (0:ℚ) ≤ (r:ℚ) / ((RAND_MAX : ℕ):ℚ) := by positivity
  have h1 : (r:ℚ) / ((RAND_MAX : ℕ):ℚ) ≤ 1 := by
    rw [div_le_one hq]
    exact_mod_cast hr
  unfold rndFloat
  constructor
  · nlinarith
  · nlinarith

/-- The lower bound of the instance position range is at most the upper
bound. -/
theorem aspect_ratio_bounds : - ASPECT_RATIO ≤ ASPECT_RATIO := by
  norm_num [ ASPECT_RATIO, WINDOW_WIDTH, WINDOW_HEIGHT]

/-- C9: for `lower <= upper` and a `rand()` value in `[0, RAND_MAX]`,
`rndFloat` returns a value in `[lower, upper]`; consequently every
instance position initialized at startup lies in
`[- ASPECT_RATIO, ASPECT_RATIO] x [-1, 1]` and every color component lies
in `[0, 1]`. -/
theorem C9_rndFloat_range (env : GLEnv) (t0 : ℚ) (r : ℕ) (lower upper : ℚ)
    (hr : r ≤ RAND_MAX) (hlu : lower ≤ upper)
    (hrnd : ∀ n, env.rnd n ≤ RAND_MAX) :
    (lower ≤ rndFloat r lower upper ∧ rndFloat r lower upper ≤ upper) ∧
    (∀ i : Fin instances_index,
      - ASPECT_RATIO ≤ ((startup env t0).1.instances i).x ∧
      ((startup env t0).1.instances i).x ≤ ASPECT_RATIO ∧
      -1 ≤ ((startup env t0).1.instances i).y ∧
      ((startup env t0).1.instances i).y ≤ 1 ∧
      0 ≤ ((startup env t0).1.instance_colors i).x ∧
      ((startup env t0).1.instance_colors i).x ≤ 1 ∧
      0 ≤ ((startup env t0).1.instance_colors i).y ∧
      ((startup env t0).1.instance_colors i).y ≤ 1 ∧
      0 ≤ ((startup env t0).1.instance_colors i).z ∧
      ((startup env t0).1.instance_colors i).z ≤ 1) := by
  refine ⟨rndFloat_mem r lower upper hr hlu, fun i => ?_⟩
  have hx := rndFloat_mem (env.rnd (5 * i)) (- ASPECT_RATIO) ASPECT_RATIO
    (hrnd _) aspect_ratio_bounds
  have hy := rndFloat_mem (env.rnd (5 * i + 1)) (-1) 1 (hrnd _) (by norm_num)
  have hc1 := rndFloat_mem (env.rnd (5 * i + 2)) 0 1 (hrnd _) (by norm_num)
  have hc2 := rndFloat_mem (env.rnd (5 * i + 3)) 0 1 (hrnd _) (by norm_num)
  have hc3 := rndFloat_mem (env.rnd (5 * i + 4)) 0 1 (hrnd _) (by norm_num)
  exact ⟨hx.1, hx.2, hy.1, hy.2, hc1.1, hc1.2, hc2.1, hc2.2, hc3.1, hc3.2⟩

/-- Witness for C9 with the all-zero `rand()` stream at `lower = 0`,
`upper = 1`. -/
theorem C9_rndFloat_range_witness :
    ((0:ℕ) ≤ RAND_MAX ∧ (0:ℚ) ≤ 1) ∧
    ((0:ℚ) ≤ rndFloat 0 0 1 ∧ rndFloat 0 0 1 ≤ 1) :=
  ⟨⟨by decide, by decide⟩,
   (C9_rndFloat_range someGLEnv 0 0 0 1 (by decide) (by decide)
      (fun _ => Nat.zero_le _)).1⟩

/-- Helper: one program step never changes the instance positions or
colors, and changes only the z component of the instance models. -/
theorem step_preserves_instance_data (s : AppState) (e : Ev) :
    (step s e).1.instances = s.instances ∧
    (step s e).1.instance_colors = s.instance_colors ∧
    (∀ i, ((step s e).1.instance_models i).x = (s.instance_models i).x ∧
          ((step s e).1.instance_models i).y = (s.instance_models i).y) := by
  cases e with
  | key k sc a m =>
      have h : step s (Ev.key k sc a m) = keyCallback s k sc a m := rfl
      rw [h]
      simp only [keyCallback, keyCallbackSpace]
      split_ifs <;> exact ⟨rfl, rfl, fun i => ⟨rfl, rfl⟩⟩
  | frameEv now => exact ⟨rfl, rfl, fun i => ⟨rfl, rfl⟩⟩

/-- Helper: any run of the program never changes the instance positions
or colors, and changes only the z component of the instance models. -/
theorem run_preserves_instance_data (evs : List Ev) (s : AppState) :
    (run s evs).1.instances = s.instances ∧
    (run s evs).1.instance_colors = s.instance_colors ∧
    (∀ i, ((run s evs).1.instance_models i).x = (s.instance_models i).x ∧
          ((run s evs).1.instance_models i).y = (s.instance_models i).y) := by
  induction evs generalizing s with
  | nil => exact ⟨rfl, rfl, fun i => ⟨rfl, rfl⟩⟩
  | cons e es ih =>
      have hs := step_preserves_instance_data s e
      have hr := ih (step s e).1
      have h1 : (run s (e :: es)).1 = (run (step s e).1 es).1 := rfl
      rw [h1]
      exact ⟨hr.1.trans hs.1, hr.2.1.trans hs.2.1,
        fun i => ⟨(hr.2.2 i).1.trans (hs.2.2 i).1,
                  (hr.2.2 i).2.trans (hs.2.2 i).2⟩⟩

/-- C2: the instance positions and colors set at startup are never
modified by any later key event or render-loop iteration, and the x and y
(scale) components of every instance model stay at 0.05; only the z
(rotation) component is rewritten per frame. -/
theorem C2_instance_data_lifetime (env : GLEnv) (t0 : ℚ) (evs : List Ev) :
    (run (startup env t0).1 evs).1.instances = (startup env t0).1.instances ∧
    (run (startup env t0).1 evs).1.instance_colors
      = (startup env t0).1.instance_colors ∧
    (∀ i, ((run (startup env t0).1 evs).1.instance_models i).x = 0.05 ∧
          ((run (startup env t0).1 evs).1.instance_models i).y = 0.05) := by
  have h := run_preserves_instance_data evs (startup env t0).1
  exact ⟨h.1, h.2.1, fun i => ⟨(h.2.2 i).1, (h.2.2 i).2⟩⟩

/-- Helper: one program step never changes the two program handles, and
the active shader is afterwards either unchanged or one of the two
handles. -/
theorem step_preserves_shader_fields (s : AppState) (e : Ev) :
    (step s e).1.circleShader = s.circleShader ∧
    (step s e).1.rectangleShader = s.rectangleShader ∧
    ((step s e).1.activeShader = s.activeShader ∨
     (step s e).1.activeShader = s.circleShader ∨
     (step s e).1.activeShader = s.rectangleShader) := by
  cases e with
  | key k sc a m =>
      have h : step s (Ev.key k sc a m) = keyCallback s k sc a m := rfl
      rw [h]
      simp only [keyCallback, keyCallbackSpace]
      split_ifs <;>
        first
        | exact ⟨rfl, rfl, Or.inl rfl⟩
        | exact ⟨rfl, rfl, Or.inr (Or.inl rfl)⟩
        | exact ⟨rfl, rfl, Or.inr (Or.inr rfl)⟩
  | frameEv now => exact ⟨rfl, rfl, Or.inl rfl⟩

/-- Helper: any run of the program preserves the two program handles, and
keeps the active shader either at its starting value or at one of the two
handles. -/
theorem run_preserves_shader_fields (evs : List Ev) (s : AppState) :
    (run s evs).1.circleShader = s.circleShader ∧
    (run s evs).1.rectangleShader = s.rectangleShader ∧
    ((run s evs).1.activeShader = s.activeShader ∨
     (run s evs).1.activeShader = s.circleShader ∨
     (run s evs).1.activeShader = s.rectangleShader) := by
  induction evs generalizing s with
  | nil => exact ⟨rfl, rfl, Or.inl rfl⟩
  | cons e es ih =>
      have hs := step_preserves_shader_fields s e
      have hr := ih (step s e).1
      have h1 : (run s (e :: es)).1 = (run (step s e).1 es).1 := rfl
      rw [h1]
      refine ⟨hr.1.trans hs.1, hr.2.1.trans hs.2.1, ?_⟩
      rcases hr.2.2 with ha | ha | ha
      · rw [ha]
        rcases hs.2.2 with hb | hb | hb
        · exact Or.inl hb
        · exact Or.inr (Or.inl hb)
        · exact Or.inr (Or.inr hb)
      · exact Or.inr (Or.inl (ha.trans hs.1))
      · exact Or.inr (Or.inr (ha.trans hs.2.1))

/-- C5: after startup the active shader equals one of the two compiled
programs, and this is preserved by every key-callback invocation and
every render-loop iteration; the two program handles themselves never
change. -/
theorem C5_active_shader_invariant (env : GLEnv) (t0 : ℚ) (evs : List Ev) :
    ((run (startup env t0).1 evs).1.activeShader
        = (run (startup env t0).1 evs).1.circleShader ∨
     (run (startup env t0).1 evs).1.activeShader
        = (run (startup env t0).1 evs).1.rectangleShader) ∧
    (run (startup env t0).1 evs).1.circleShader = (startup env t0).1.circleShader ∧
    (run (startup env t0).1 evs).1.rectangleShader
      = (startup env t0).1.rectangleShader := by
  have h := run_preserves_shader_fields evs (startup env t0).1
  refine ⟨?_, h.1, h.2.1⟩
  rcases h.2.2 with ha | ha | ha
  · exact Or.inr (ha.trans (h.2.1.symm))
  · exact Or.inl (ha.trans (h.1.symm))
  · exact Or.inr (ha.trans (h.2.1.symm))

/-- Helper: the GL calls made by one program step (a key callback or a
render-loop iteration) include no creation and no deletion of any GPU
object. -/
theorem step_trace_no_create_delete (s : AppState) (e : Ev) :
    (step s e).2.filter isCreation = [] ∧
    (step s e).2.filter isDeletion = [] ∧
    (step s e).2.filter isTeardown = [] := by
  cases e with
  | key k sc a m =>
      have h : step s (Ev.key k sc a m) = keyCallback s k sc a m := rfl
      rw [h]
      simp only [keyCallback, keyCallbackSpace]
      split_ifs <;> exact ⟨rfl, rfl, rfl⟩
  | frameEv now => exact ⟨rfl, rfl, rfl⟩

/-- Helper: the GL calls made after startup include no creation and no
deletion of any GPU object. -/
theorem run_trace_no_create_delete (evs : List Ev) (s : AppState) :
    (run s evs).2.filter isCreation = [] ∧
    (run s evs).2.filter isDeletion = [] ∧
    (run s evs).2.filter isTeardown = [] := by
  induction evs generalizing s with
  | nil => exact ⟨rfl, rfl, rfl⟩
  | cons e es ih =>
      have hs := step_trace_no_create_delete s e
      have hr := ih (step s e).1
      have h2 : (run s (e :: es)).2 = (step s e).2 ++ (run (step s e).1 es).2 := rfl
      rw [h2, List.filter_append, List.filter_append, List.filter_append,
        hs.1, hs.2.1, hs.2.2, hr.1, hr.2.1, hr.2.2]
      exact ⟨rfl, rfl, rfl⟩

/-- C7 (amended): every creation of a GPU object happens during startup,
before the render loop — the startup trace creates exactly one vertex
array, five buffers, four shader objects and two programs, and the trace
after startup creates and deletes nothing; no buffer, vertex array, or
program is ever deleted; the only deletions in the whole trace are the
four `glDeleteShader` calls on the intermediate shader objects, made
during startup by `compileShader` right after linking. -/
theorem C7_resource_lifecycle (env : GLEnv) (t0 : ℚ) (evs : List Ev) :
    (run (startup env t0).1 evs).2.filter isCreation = [] ∧
    (run (startup env t0).1 evs).2.filter isDeletion = [] ∧
    (programTrace env t0 evs).filter isTeardown = [] ∧
    (startup env t0).2.2.filter isCreation =
      [GLCall.genVertexArrays, GLCall.genBuffers, GLCall.genBuffers,
       GLCall.genBuffers, GLCall.genBuffers, GLCall.genBuffers,
       GLCall.createShader, GLCall.createShader, GLCall.createProgram,
       GLCall.createShader, GLCall.createShader, GLCall.createProgram] ∧
    (startup env t0).2.2.filter isDeletion =
      [GLCall.deleteShader, GLCall.deleteShader,
       GLCall.deleteShader, GLCall.deleteShader] := by
  refine ⟨(run_trace_no_create_delete evs _).1,
    (run_trace_no_create_delete evs _).2.1, ?_, rfl, rfl⟩
  have h : programTrace env t0 evs
      = (startup env t0).2.2 ++ (run (startup env t0).1 evs).2 := rfl
  rw [h, List.filter_append, (run_trace_no_create_delete evs _).2.2]
  rfl

/-- C7 counterexample: already with zero render-loop iterations the
program's GL trace contains a `glDeleteShader` call, so it is not true
that no shader object is ever deleted before process exit. -/
theorem C7_shader_deletion_counterexample :
    GLCall.deleteShader ∈ programTrace someGLEnv 0 [] := by decide

end Graphics
